import Mathlib

/-!
Shallow embedding of the satellite tracking core of gnss-sdr-monitor.

Sources embedded here:
- src/src/skyplot_widget.h and src/src/skyplot_widget.cpp: the satellite
  tracking table and three tier position resolver (the real widget
  variant).
- src/unnamed/part_001: a simplified sky plot variant whose
  updateReceiverPosition synchronously rewrites satellite positions.
- src/src/gps_ephemeris_wrapper.h / .cpp: the ephemeris ring buffer.

Modelling conventions:
- C++ double is modelled as Rat.  Every double operation the modelled
  code performs (comparisons, assignments, additions of small integers,
  fmod of integer valued arguments) is exact in IEEE double at the
  magnitudes involved, so the rational model is faithful.
- fmod(x, y) applied to integer valued doubles equals the truncating
  remainder Int.tmod: the result carries the sign of the dividend, as
  in C.
- The trigonometric Computed tier (computeSatelliteElevation and
  computeSatelliteAzimuth, skyplot_widget.cpp lines 744-837, and the
  computeApproximate functions of part_001) evaluates sin on doubles and
  cannot be embedded exactly; it is modelled as a parameter
  (ApproxModel) with the same argument list (prn, system, receiver
  latitude, receiver longitude, gps time).  Every theorem below holds
  for all values of that parameter, which is sound because the widget
  range checks the result of that tier before storing it.
- std::map<int, T> is modelled as an association list with distinct
  keys; findSat models map lookup and storeSat models operator[]
  followed by mutation (replace the entry if the key is present,
  otherwise append a new entry).
- Wall clock fields (QDateTime lastSeen, m_lastReceiverUpdate), repaint
  scheduling (m_updateTimer, m_needsUpdate, scheduleUpdate, update), the
  hover and selection pointers (m_hoveredSatellite, m_selectedSatellite)
  and the highlighted flag carry no information read by the tracking
  logic and are omitted.  The timer callback installed by the
  constructor (skyplot_widget.cpp lines 106-115) runs
  cleanupStaleSatellites after each scheduled update; updateCycle below
  models one feed batch followed by that deferred cleanup tick.
-/

/-- Observation record, one per receiver channel, as read from the
gnss_sdr.GnssSynchro protobuf message by skyplot_widget.cpp.
Modelled from the spec: the protobuf message definition
(gnss_synchro.pb.h) is not under src/; section 6 of the spec fixes the
field types: channel id (int), PRN (int), constellation code (single
letter string), signal id (string), sampling frequency indicator
(nonzero means active channel), carrier to noise ratio (double),
symbol validity flag (bool), GNSS receive time (double, seconds),
optional satellite elevation and azimuth with a presence and validity
flag pair. -/
structure GnssSynchro where
  channel_id : Int
  prn : Int
  system : String
  signal : String
  fs : Int
  cn0_db_hz : Rat
  flag_valid_symbol_output : Bool
  rx_time : Rat
  has_flag_valid_satellite_position : Bool
  flag_valid_satellite_position : Bool
  has_satellite_elevation_deg : Bool
  has_satellite_azimuth_deg : Bool
  satellite_elevation_deg : Rat
  satellite_azimuth_deg : Rat
  deriving DecidableEq

/-- Receiver fix, as read from the gnss_sdr.MonitorPvt protobuf message.
Modelled from the spec: monitor_pvt.pb.h is not under src/; section 6
of the spec fixes the fields read by the widget: latitude, longitude,
height, GNSS time (rx_time), all double. -/
structure MonitorPvt where
  latitude : Rat
  longitude : Rat
  height : Rat
  rx_time : Rat
  deriving DecidableEq

/-- PositionSource enum, skyplot_widget.h lines 45-51. -/
inductive PositionSource where
  | NONE
  | REAL
  | COMPUTED
  | FALLBACK
  deriving DecidableEq

/-- SatelliteInfo, skyplot_widget.h lines 53-82, minus the wall clock
field lastSeen and the UI flag highlighted (never read by the tracking
logic). -/
structure SatelliteInfo where
  prn : Int
  system : String
  signal : String
  channel_id : Int
  elevation : Rat
  azimuth : Rat
  positionSource : PositionSource
  cn0 : Rat
  valid : Bool
  seenInThisUpdate : Bool
  missedUpdates : Int
  deriving DecidableEq

/-- SatelliteInfo default constructor, skyplot_widget.cpp lines 48-54
(std::string members default to the empty string). -/
def SatelliteInfo.init : SatelliteInfo where
  prn := 0
  system := ""
  signal := ""
  channel_id := -1
  elevation := 0
  azimuth := 0
  positionSource := PositionSource.NONE
  cn0 := 0
  valid := false
  seenInThisUpdate := false
  missedUpdates := 0

/-- SatelliteInfo::isPositionValid, skyplot_widget.cpp lines 56-61. -/
def SatelliteInfo.isPositionValid (s : SatelliteInfo) : Bool :=
  decide (0 ≤ s.elevation) && decide (s.elevation ≤ 90) &&
    decide (0 ≤ s.azimuth) && decide (s.azimuth < 360) &&
    decide (s.positionSource ≠ PositionSource.NONE)

/-- Parameter standing for the trigonometric Computed tier: the pair
computeSatelliteElevation / computeSatelliteAzimuth of
skyplot_widget.cpp lines 744-837 (and the computeApproximate pair of
part_001).  Arguments in order: prn, system, receiver latitude,
receiver longitude, gps time. -/
structure ApproxModel where
  el : Int → String → Rat → Rat → Rat → Rat
  az : Int → String → Rat → Rat → Rat → Rat

/-- std::map lookup (m_satellites.find / iteration order is irrelevant
to every property proved here). -/
def findSat {α : Type} (c : Int) : List (Int × α) → Option α
  | [] => none
  | (k, s) :: rest => if k = c then some s else findSat c rest

/-- std::map operator[] followed by in place mutation: replace the entry
with key c if present, otherwise append a fresh entry. -/
def storeSat {α : Type} (c : Int) (v : α) : List (Int × α) → List (Int × α)
  | [] => [(c, v)]
  | (k, s) :: rest => if k = c then (c, v) :: rest else (k, s) :: storeSat c v rest

/-- The state of SkyPlotWidget, skyplot_widget.h lines 139-178, retaining
the fields the tracking logic reads or writes. -/
structure SkyPlotWidget where
  satellites : List (Int × SatelliteInfo)
  maxMissedUpdates : Int
  receiverLat : Rat
  receiverLon : Rat
  receiverHeight : Rat
  currentGpsTime : Rat
  hasReceiverPosition : Bool
  totalSatellites : Nat
  satellitesWithRealPos : Nat
  satellitesWithComputedPos : Nat
  satellitesWithFallbackPos : Nat

namespace SkyPlotWidget

/-- SkyPlotWidget constructor, skyplot_widget.cpp lines 95-118
(DEFAULT_MAX_MISSED_UPDATES = 5, skyplot_widget.h line 177). -/
def initState : SkyPlotWidget where
  satellites := []
  maxMissedUpdates := 5
  receiverLat := 0
  receiverLon := 0
  receiverHeight := 0
  currentGpsTime := 0
  hasReceiverPosition := false
  totalSatellites := 0
  satellitesWithRealPos := 0
  satellitesWithComputedPos := 0
  satellitesWithFallbackPos := 0

/-- SkyPlotWidget::extractRealPosition, skyplot_widget.cpp lines
274-296.  Returns the measured pair when the presence and validity
flags hold and the values pass the range check; the C++ version leaves
its output parameters untouched and returns false otherwise, modelled
by none. -/
def extractRealPosition (obs : GnssSynchro) : Option (Rat × Rat) :=
  if obs.has_flag_valid_satellite_position && obs.flag_valid_satellite_position then
    if obs.has_satellite_elevation_deg && obs.has_satellite_azimuth_deg then
      let el := obs.satellite_elevation_deg
      let az := obs.satellite_azimuth_deg
      if 0 ≤ el ∧ el ≤ 90 ∧ 0 ≤ az ∧ az < 360 then some (el, az) else none
    else none
  else none

/-- SkyPlotWidget::computeFallbackPosition, skyplot_widget.cpp lines
307-318.  All fmod arguments are integer valued doubles, so fmod is the
truncating remainder Int.tmod exactly. -/
def computeFallbackPosition (obs : GnssSynchro) : Rat × Rat :=
  let elevation : Int := 20 + Int.tmod (obs.prn * 7) 60
  let az0 : Int := Int.tmod (obs.prn * 23) 360
  let azimuth : Int :=
    if obs.system = "E" then Int.tmod (az0 + 90) 360
    else if obs.system = "R" then Int.tmod (az0 + 180) 360
    else if obs.system = "C" then Int.tmod (az0 + 270) 360
    else az0
  ((elevation : Rat), (azimuth : Rat))

/-- SkyPlotWidget::computeApproximatePosition, skyplot_widget.cpp lines
298-305: delegates to the trigonometric tier (the ApproxModel
parameter) with the stored receiver position and the observation
receive time. -/
def computeApproximatePosition (A : ApproxModel) (st : SkyPlotWidget)
    (obs : GnssSynchro) : Rat × Rat :=
  (A.el obs.prn obs.system st.receiverLat st.receiverLon obs.rx_time,
   A.az obs.prn obs.system st.receiverLat st.receiverLon obs.rx_time)

/-- SkyPlotWidget::processSatellite, skyplot_widget.cpp lines 203-272.
sat0 is the looked up or default constructed record; sat1 applies the
PRN reassignment reset (lines 218-224); sat2 the scalar field update
(lines 226-235); resolved is the three tier resolution (lines 237-258);
sat3 the guarded position update (lines 260-271). -/
def processSatellite (A : ApproxModel) (obs : GnssSynchro)
    (st : SkyPlotWidget) : SkyPlotWidget :=
  let c := obs.channel_id
  let sat0 := match findSat c st.satellites with
    | some s => s
    | none => SatelliteInfo.init
  let sat1 := if sat0.prn ≠ (0 : Int) ∧ sat0.prn ≠ obs.prn
    then { sat0 with positionSource := PositionSource.NONE } else sat0
  let sat2 := { sat1 with
    prn := obs.prn
    system := obs.system
    signal := obs.signal
    channel_id := c
    cn0 := obs.cn0_db_hz
    valid := obs.flag_valid_symbol_output
    seenInThisUpdate := true
    missedUpdates := 0 }
  let resolved : Rat × Rat × PositionSource :=
    match extractRealPosition obs with
    | some (e, a) => (e, a, PositionSource.REAL)
    | none =>
      if st.hasReceiverPosition then
        let p := computeApproximatePosition A st obs
        (p.1, p.2, PositionSource.COMPUTED)
      else
        let p := computeFallbackPosition obs
        (p.1, p.2, PositionSource.FALLBACK)
  let sat3 :=
    if 0 ≤ resolved.1 ∧ resolved.1 ≤ 90 ∧ 0 ≤ resolved.2.1 ∧ resolved.2.1 < 360 then
      { sat2 with
        elevation := resolved.1
        azimuth := resolved.2.1
        positionSource := resolved.2.2 }
    else if sat2.positionSource = PositionSource.NONE then
      let p := computeFallbackPosition obs
      { sat2 with
        elevation := p.1
        azimuth := p.2
        positionSource := PositionSource.FALLBACK }
    else sat2
  { st with satellites := storeSat c sat3 st.satellites }

/-- Statistics recomputation, skyplot_widget.cpp lines 181-198:
recomputed from scratch over the whole table at the end of each batch. -/
def recomputeStats (st : SkyPlotWidget) : SkyPlotWidget :=
  { st with
    totalSatellites := st.satellites.countP (fun p => p.2.isPositionValid)
    satellitesWithRealPos := st.satellites.countP
      (fun p => p.2.isPositionValid && decide (p.2.positionSource = PositionSource.REAL))
    satellitesWithComputedPos := st.satellites.countP
      (fun p => p.2.isPositionValid && decide (p.2.positionSource = PositionSource.COMPUTED))
    satellitesWithFallbackPos := st.satellites.countP
      (fun p => p.2.isPositionValid && decide (p.2.positionSource = PositionSource.FALLBACK)) }

/-- The loop body of SkyPlotWidget::updateSatellites, skyplot_widget.cpp
lines 172-179: an observable is processed only when its sampling
frequency indicator is nonzero (active channel). -/
def processStep (A : ApproxModel) (acc : SkyPlotWidget) (obs : GnssSynchro) : SkyPlotWidget :=
  if obs.fs ≠ 0 then processSatellite A obs acc else acc

/-- SkyPlotWidget::updateSatellites, skyplot_widget.cpp lines 164-201:
mark every record unseen, process every observable with nonzero fs in
batch order, then recompute the statistics.  The trailing
scheduleUpdate only arms the repaint timer. -/
def updateSatellites (A : ApproxModel) (observables : List GnssSynchro)
    (st : SkyPlotWidget) : SkyPlotWidget :=
  let marked := st.satellites.map (fun p => (p.1, { p.2 with seenInThisUpdate := false }))
  let st1 := { st with satellites := marked }
  let st2 := observables.foldl (processStep A) st1
  recomputeStats st2

/-- The fix acceptance test of SkyPlotWidget::updateReceiverPosition,
skyplot_widget.cpp lines 128-130 (mkRat 1 1000 is the threshold 0.001,
written without division so that it evaluates by kernel reduction). -/
def fixValid (pvt : MonitorPvt) : Prop :=
  -90 ≤ pvt.latitude ∧ pvt.latitude ≤ 90 ∧
    -180 ≤ pvt.longitude ∧ pvt.longitude ≤ 180 ∧
    (mkRat 1 1000 < |pvt.latitude| ∨ mkRat 1 1000 < |pvt.longitude|)

instance (pvt : MonitorPvt) : Decidable (fixValid pvt) := by
  unfold fixValid; infer_instance

/-- SkyPlotWidget::updateReceiverPosition, skyplot_widget.cpp lines
120-162.  When the fix is accepted the five receiver fields are
replaced; the positionChanged block at lines 144-158 computes two local
variables inside the loop and never stores into any record (the comment
at lines 154-155 defers recomputation to the next satellite update), so
it has no observable effect.  A rejected fix leaves the state as is. -/
def updateReceiverPosition (pvt : MonitorPvt) (st : SkyPlotWidget) : SkyPlotWidget :=
  if fixValid pvt then
    { st with
      receiverLat := pvt.latitude
      receiverLon := pvt.longitude
      receiverHeight := pvt.height
      currentGpsTime := pvt.rx_time
      hasReceiverPosition := true }
  else st

/-- The per record body of SkyPlotWidget::cleanupStaleSatellites,
skyplot_widget.cpp lines 324-341: a record seen this update is kept as
is; otherwise missedUpdates is incremented and the record is erased
when the count exceeds the maximum. -/
def cleanupSat (maxMissed : Int) (s : SatelliteInfo) : Option SatelliteInfo :=
  if s.seenInThisUpdate then some s
  else
    let s1 := { s with missedUpdates := s.missedUpdates + 1 }
    if s1.missedUpdates > maxMissed then none else some s1

/-- SkyPlotWidget::cleanupStaleSatellites, skyplot_widget.cpp lines
320-343.  The hover and selection pointer clearing at lines 333-335
concerns the omitted UI references only. -/
def cleanupStaleSatellites (st : SkyPlotWidget) : SkyPlotWidget :=
  let kept := st.satellites.filterMap
    (fun p => (cleanupSat st.maxMissedUpdates p.2).map (fun s => (p.1, s)))
  { st with satellites := kept }

/-- SkyPlotWidget::clear, skyplot_widget.cpp lines 345-356: empties the
table and zeroes the statistics (the receiver fix is kept). -/
def clear (st : SkyPlotWidget) : SkyPlotWidget :=
  { st with
    satellites := []
    totalSatellites := 0
    satellitesWithRealPos := 0
    satellitesWithComputedPos := 0
    satellitesWithFallbackPos := 0 }

/-- SkyPlotWidget::clearStale, skyplot_widget.cpp lines 358-362: runs the
cleanup pass directly (the trailing scheduleUpdate only arms the
repaint timer). -/
def clearStale (st : SkyPlotWidget) : SkyPlotWidget :=
  cleanupStaleSatellites st

/-- One update cycle as wired by the constructor: a feed batch through
updateSatellites, then the deferred timer tick that runs
cleanupStaleSatellites (skyplot_widget.cpp lines 106-115 and 200). -/
def updateCycle (A : ApproxModel) (st : SkyPlotWidget)
    (batch : List GnssSynchro) : SkyPlotWidget :=
  cleanupStaleSatellites (updateSatellites A batch st)

/-- A run of consecutive update cycles. -/
def applyCycles (A : ApproxModel) (bs : List (List GnssSynchro))
    (st : SkyPlotWidget) : SkyPlotWidget :=
  bs.foldl (updateCycle A) st

end SkyPlotWidget

/-- The public operations of the widget (skyplot_widget.h lines
97-101). -/
inductive Operation where
  | updateSatellites (observables : List GnssSynchro)
  | updateReceiverPosition (pvt : MonitorPvt)
  | clear
  | clearStale

/-- Dispatch one public operation. -/
def applyOp (A : ApproxModel) (st : SkyPlotWidget) : Operation → SkyPlotWidget
  | Operation.updateSatellites obs => SkyPlotWidget.updateSatellites A obs st
  | Operation.updateReceiverPosition pvt => SkyPlotWidget.updateReceiverPosition pvt st
  | Operation.clear => SkyPlotWidget.clear st
  | Operation.clearStale => SkyPlotWidget.clearStale st

/-- Apply a sequence of public operations in order. -/
def applyOps (A : ApproxModel) (ops : List Operation) (st : SkyPlotWidget) : SkyPlotWidget :=
  ops.foldl (applyOp A) st

/-- SatelliteInfo of the simplified variant, src/unnamed/part_002 lines
43-54 (the header of src/unnamed/part_001): no position source tag and
no staleness counter beyond the per cycle flag. -/
structure SatelliteInfoV2 where
  prn : Int
  system : String
  signal : String
  elevation : Rat
  azimuth : Rat
  cn0 : Rat
  valid : Bool
  channel_id : Int
  seenInThisUpdate : Bool
  deriving DecidableEq

/-- State of the simplified variant widget, src/unnamed/part_002 lines
83-96. -/
structure SkyPlotWidgetV2 where
  satellites : List (Int × SatelliteInfoV2)
  receiverLat : Rat
  receiverLon : Rat
  receiverHeight : Rat
  currentGpsTime : Rat
  hasReceiverPosition : Bool
  deriving DecidableEq

/-- SkyPlotWidget::updateReceiverPosition of the simplified variant,
src/unnamed/part_001 lines 65-85: the incoming fix is stored without
any validation, and the elevation and azimuth of every tracked
satellite are immediately rewritten from the trigonometric tier with
the new receiver position and time. -/
def updateReceiverPositionV2 (A : ApproxModel) (pvt : MonitorPvt)
    (st : SkyPlotWidgetV2) : SkyPlotWidgetV2 :=
  let lat := pvt.latitude
  let lon := pvt.longitude
  let t := pvt.rx_time
  let rewritten := st.satellites.map (fun p =>
    (p.1, { p.2 with
      elevation := A.el p.2.prn p.2.system lat lon t
      azimuth := A.az p.2.prn p.2.system lat lon t }))
  { st with
    receiverLat := lat
    receiverLon := lon
    receiverHeight := pvt.height
    currentGpsTime := t
    hasReceiverPosition := true
    satellites := rewritten }

/-- GPS ephemeris record.  The protobuf message (gps_ephemeris.pb.h) is
not under src/ and none of its fields are read by the wrapper.
Modelled from the spec: an ephemeris value is an abstract record keyed
by PRN (section 3 and section 6 treat ephemeris records as whole per
satellite parameter sets); one representative field suffices since the
wrapper only stores and returns whole values. -/
structure GpsEphemeris where
  prn : Int
  deriving DecidableEq

/-- boost::circular_buffer<T>.  The default constructor creates a buffer
with zero capacity; push_back drops the front element when the buffer
is full, and inserts nothing at all when the capacity is zero
(documented boost semantics). -/
structure CircularBuffer (α : Type) where
  capacity : Nat
  data : List α
  deriving DecidableEq

/-- boost::circular_buffer default constructor: zero capacity, empty. -/
def CircularBuffer.create (α : Type) : CircularBuffer α where
  capacity := 0
  data := []

/-- boost::circular_buffer::push_back. -/
def CircularBuffer.push_back {α : Type} (b : CircularBuffer α) (x : α) : CircularBuffer α :=
  if b.capacity = 0 then b
  else if b.data.length = b.capacity then { b with data := b.data.tail ++ [x] }
  else { b with data := b.data ++ [x] }

/-- boost::circular_buffer::back.  Calling back() on an empty buffer is
undefined behaviour in C++; modelled as none. -/
def CircularBuffer.back {α : Type} (b : CircularBuffer α) : Option α :=
  b.data.getLast?

/-- GpsEphemerisWrapper state, gps_ephemeris_wrapper.h lines 52-54. -/
structure GpsEphemerisWrapper where
  m_bufferSize : Nat
  m_bufferEphemeris : CircularBuffer GpsEphemeris
  deriving DecidableEq

/-- GpsEphemerisWrapper constructor, gps_ephemeris_wrapper.cpp lines
33-37: sets m_bufferSize to 100 but leaves the default constructed
buffer, whose capacity stays zero, untouched. -/
def GpsEphemerisWrapper.init : GpsEphemerisWrapper where
  m_bufferSize := 100
  m_bufferEphemeris := CircularBuffer.create GpsEphemeris

/-- GpsEphemerisWrapper::addGpsEphemeris, gps_ephemeris_wrapper.cpp
lines 39-44 (the dataChanged signal emission has no state effect). -/
def GpsEphemerisWrapper.addGpsEphemeris (e : GpsEphemeris)
    (w : GpsEphemerisWrapper) : GpsEphemerisWrapper :=
  { w with m_bufferEphemeris := w.m_bufferEphemeris.push_back e }

/-- GpsEphemerisWrapper::getLastGpsEphemeris, gps_ephemeris_wrapper.cpp
lines 46-49. -/
def GpsEphemerisWrapper.getLastGpsEphemeris (w : GpsEphemerisWrapper) :
    Option GpsEphemeris :=
  w.m_bufferEphemeris.back

/-! ## Association list lemmas shared by the theorems below -/

theorem findSat_storeSat_self {α : Type} (c : Int) (v : α) (l : List (Int × α)) :
    findSat c (storeSat c v l) = some v := by
  induction l with
  | nil => simp [storeSat, findSat]
  | cons p t ih =>
    obtain ⟨k, s⟩ := p
    by_cases h : k = c
    · simp [storeSat, h, findSat]
    · simp [storeSat, h, findSat, ih]

theorem findSat_storeSat_ne {α : Type} {c k : Int} (h : k ≠ c) (v : α)
    (l : List (Int × α)) : findSat k (storeSat c v l) = findSat k l := by
  induction l with
  | nil => simp [storeSat, findSat, Ne.symm h]
  | cons p t ih =>
    obtain ⟨k1, s⟩ := p
    by_cases h1 : k1 = c
    · subst h1
      simp [storeSat, findSat, Ne.symm h]
    · simp [storeSat, h1, findSat, ih]

theorem mem_storeSat {α : Type} {p : Int × α} {c : Int} {v : α}
    {l : List (Int × α)} (hp : p ∈ storeSat c v l) : p ∈ l ∨ p = (c, v) := by
  induction l with
  | nil => simpa [storeSat] using hp
  | cons q t ih =>
    obtain ⟨k, s⟩ := q
    by_cases h : k = c
    · simp only [storeSat, h, if_pos rfl] at hp
      rcases List.mem_cons.mp hp with h1 | h1
      · exact Or.inr h1
      · exact Or.inl (List.mem_cons_of_mem _ h1)
    · simp only [storeSat, if_neg h] at hp
      rcases List.mem_cons.mp hp with h1 | h1
      · exact Or.inl (h1 ▸ List.mem_cons_self _ _)
      · rcases ih h1 with h2 | h2
        · exact Or.inl (List.mem_cons_of_mem _ h2)
        · exact Or.inr h2

theorem findSat_mem {α : Type} {c : Int} {l : List (Int × α)} {s : α}
    (h : findSat c l = some s) : (c, s) ∈ l := by
  induction l with
  | nil => simp [findSat] at h
  | cons p t ih =>
    obtain ⟨k, v⟩ := p
    by_cases h1 : k = c
    · subst h1
      simp only [findSat, if_pos rfl, if_true, Option.some.injEq] at h
      subst h
      exact List.mem_cons_self _ _
    · simp only [findSat, if_neg h1] at h
      exact List.mem_cons_of_mem _ (ih h)

theorem findSat_map {α β : Type} (f : α → β) (c : Int) (l : List (Int × α)) :
    findSat c (l.map (fun p => (p.1, f p.2))) = (findSat c l).map f := by
  induction l with
  | nil => simp [findSat]
  | cons p t ih =>
    obtain ⟨k, s⟩ := p
    by_cases h : k = c
    · simp [findSat, h]
    · simp [findSat, h, ih]

/-- Key distinctness of the association list modelling std::map (a
std::map never holds two entries with the same key). -/
def keysND {α : Type} (l : List (Int × α)) : Prop := (l.map Prod.fst).Nodup

instance {α : Type} (l : List (Int × α)) : Decidable (keysND l) := by
  unfold keysND; infer_instance

theorem findSat_eq_none {α : Type} {c : Int} {l : List (Int × α)}
    (h : c ∉ l.map Prod.fst) : findSat c l = none := by
  induction l with
  | nil => simp [findSat]
  | cons p t ih =>
    obtain ⟨k, s⟩ := p
    simp only [List.map_cons, List.mem_cons] at h
    push_neg at h
    rw [findSat, if_neg (fun hk : k = c => h.1 hk.symm)]
    exact ih h.2

theorem keys_filterMap_sublist {α β : Type} (g : α → Option β)
    (l : List (Int × α)) :
    ((l.filterMap (fun p => (g p.2).map (fun s => (p.1, s)))).map Prod.fst).Sublist
      (l.map Prod.fst) := by
  induction l with
  | nil => simp
  | cons p t ih =>
    obtain ⟨k, s⟩ := p
    cases hg : g s with
    | none => simpa [List.filterMap_cons, hg] using ih.cons _
    | some s1 => simpa [List.filterMap_cons, hg] using ih.cons₂ k

theorem keysND_filterMap {α β : Type} (g : α → Option β)
    {l : List (Int × α)} (h : keysND l) :
    keysND (l.filterMap (fun p => (g p.2).map (fun s => (p.1, s)))) :=
  List.Nodup.sublist (keys_filterMap_sublist g l) h

theorem findSat_filterMap {α β : Type} (g : α → Option β) (c : Int)
    {l : List (Int × α)} (h : keysND l) :
    findSat c (l.filterMap (fun p => (g p.2).map (fun s => (p.1, s)))) =
      (findSat c l).bind g := by
  induction l with
  | nil => simp [findSat]
  | cons p t ih =>
    obtain ⟨k, s⟩ := p
    have hnd : keysND t := (List.nodup_cons.mp h).2
    have hk : k ∉ t.map Prod.fst := (List.nodup_cons.mp h).1
    by_cases h1 : k = c
    · subst h1
      have hfind : findSat k ((k, s) :: t) = some s := by simp [findSat]
      cases hg : g s with
      | none =>
        rw [hfind, List.filterMap_cons, hg]
        show findSat k (t.filterMap _) = g s
        rw [hg]
        exact findSat_eq_none (fun hc =>
          hk ((keys_filterMap_sublist g t).subset hc))
      | some s1 =>
        rw [hfind, List.filterMap_cons, hg]
        show findSat k ((k, s1) :: t.filterMap _) = g s
        rw [hg]
        simp [findSat]
    · have hfind : findSat c ((k, s) :: t) = findSat c t := by simp [findSat, h1]
      cases hg : g s with
      | none =>
        rw [hfind, List.filterMap_cons, hg]
        exact ih hnd
      | some s1 =>
        rw [hfind, List.filterMap_cons, hg]
        show findSat c ((k, s1) :: t.filterMap _) = _
        rw [show findSat c ((k, s1) :: t.filterMap
          (fun p => (g p.2).map (fun s => (p.1, s)))) = findSat c (t.filterMap
          (fun p => (g p.2).map (fun s => (p.1, s)))) from by simp [findSat, h1]]
        exact ih hnd

theorem keys_storeSat {α : Type} (c : Int) (v : α) (l : List (Int × α)) :
    (storeSat c v l).map Prod.fst =
      if c ∈ l.map Prod.fst then l.map Prod.fst else l.map Prod.fst ++ [c] := by
  induction l with
  | nil => simp [storeSat]
  | cons p t ih =>
    obtain ⟨k, s⟩ := p
    by_cases h : k = c
    · subst h
      simp [storeSat]
    · simp only [storeSat, if_neg h, List.map_cons, ih, List.mem_cons]
      have hck : ¬c = k := fun hc => h hc.symm
      by_cases h3 : c ∈ t.map Prod.fst
      · simp [h3, hck]
      · simp [h3, hck]

theorem keysND_storeSat {α : Type} {c : Int} {v : α} {l : List (Int × α)}
    (h : keysND l) : keysND (storeSat c v l) := by
  unfold keysND at h ⊢
  rw [keys_storeSat]
  by_cases h3 : c ∈ l.map Prod.fst
  · simpa [h3] using h
  · simp only [h3, if_neg, ite_false]
    simp only [List.nodup_append, List.nodup_cons, List.not_mem_nil, not_false_iff,
      List.nodup_nil, and_true, true_and]
    exact ⟨h, by simpa [List.disjoint_singleton] using h3⟩

theorem keysND_map {α β : Type} (f : α → β) {l : List (Int × α)}
    (h : keysND l) : keysND (l.map (fun p => (p.1, f p.2))) := by
  unfold keysND at h ⊢
  have hkeys : (l.map (fun p => (p.1, f p.2))).map Prod.fst = l.map Prod.fst := by
    induction l with
    | nil => rfl
    | cons p t ih => simp [ih]
  rw [hkeys]
  exact h

/-! ## Frame lemmas for the widget operations -/

theorem SkyPlotWidget.updateReceiverPosition_satellites (pvt : MonitorPvt)
    (st : SkyPlotWidget) :
    (SkyPlotWidget.updateReceiverPosition pvt st).satellites = st.satellites := by
  unfold SkyPlotWidget.updateReceiverPosition
  split <;> rfl

theorem SkyPlotWidget.recomputeStats_satellites (st : SkyPlotWidget) :
    (SkyPlotWidget.recomputeStats st).satellites = st.satellites := rfl

theorem SkyPlotWidget.recomputeStats_maxMissed (st : SkyPlotWidget) :
    (SkyPlotWidget.recomputeStats st).maxMissedUpdates = st.maxMissedUpdates := rfl

theorem SkyPlotWidget.processSatellite_maxMissed (A : ApproxModel)
    (obs : GnssSynchro) (st : SkyPlotWidget) :
    (SkyPlotWidget.processSatellite A obs st).maxMissedUpdates = st.maxMissedUpdates := rfl

theorem SkyPlotWidget.foldl_processStep_maxMissed (A : ApproxModel)
    (b : List GnssSynchro) (st : SkyPlotWidget) :
    ((b.foldl (SkyPlotWidget.processStep A) st)).maxMissedUpdates = st.maxMissedUpdates := by
  induction b generalizing st with
  | nil => rfl
  | cons o t ih =>
    rw [List.foldl_cons, ih]
    unfold SkyPlotWidget.processStep
    split <;> rfl

theorem SkyPlotWidget.updateSatellites_maxMissed (A : ApproxModel)
    (b : List GnssSynchro) (st : SkyPlotWidget) :
    (SkyPlotWidget.updateSatellites A b st).maxMissedUpdates = st.maxMissedUpdates := by
  simp only [SkyPlotWidget.updateSatellites]
  rw [SkyPlotWidget.recomputeStats_maxMissed, SkyPlotWidget.foldl_processStep_maxMissed]

theorem SkyPlotWidget.cleanupStale_maxMissed (st : SkyPlotWidget) :
    (SkyPlotWidget.cleanupStaleSatellites st).maxMissedUpdates = st.maxMissedUpdates := rfl

theorem SkyPlotWidget.updateCycle_maxMissed (A : ApproxModel)
    (st : SkyPlotWidget) (b : List GnssSynchro) :
    (SkyPlotWidget.updateCycle A st b).maxMissedUpdates = st.maxMissedUpdates := by
  unfold SkyPlotWidget.updateCycle
  rw [SkyPlotWidget.cleanupStale_maxMissed, SkyPlotWidget.updateSatellites_maxMissed]

theorem SkyPlotWidget.findSat_processStep_ne (A : ApproxModel) {c : Int}
    (obs : GnssSynchro) (st : SkyPlotWidget) (h : obs.channel_id ≠ c) :
    findSat c (SkyPlotWidget.processStep A st obs).satellites =
      findSat c st.satellites := by
  unfold SkyPlotWidget.processStep
  split
  · show findSat c (storeSat obs.channel_id _ st.satellites) = _
    exact findSat_storeSat_ne (Ne.symm h) _ _
  · rfl

theorem SkyPlotWidget.findSat_foldl_absent (A : ApproxModel) {c : Int}
    (b : List GnssSynchro) (st : SkyPlotWidget)
    (h : ∀ o ∈ b, o.channel_id ≠ c) :
    findSat c ((b.foldl (SkyPlotWidget.processStep A) st)).satellites =
      findSat c st.satellites := by
  induction b generalizing st with
  | nil => rfl
  | cons o t ih =>
    rw [List.foldl_cons, ih _ (fun o1 ho => h o1 (List.mem_cons_of_mem _ ho)),
      SkyPlotWidget.findSat_processStep_ne A o st (h o (List.mem_cons_self _ _))]

theorem SkyPlotWidget.findSat_updateSatellites_absent (A : ApproxModel) {c : Int}
    (b : List GnssSynchro) (st : SkyPlotWidget)
    (h : ∀ o ∈ b, o.channel_id ≠ c) :
    findSat c (SkyPlotWidget.updateSatellites A b st).satellites =
      (findSat c st.satellites).map (fun r => { r with seenInThisUpdate := false }) := by
  simp only [SkyPlotWidget.updateSatellites]
  rw [SkyPlotWidget.recomputeStats_satellites, SkyPlotWidget.findSat_foldl_absent A b _ h]
  exact findSat_map (fun r => { r with seenInThisUpdate := false }) c st.satellites

theorem SkyPlotWidget.keysND_processStep (A : ApproxModel) (obs : GnssSynchro)
    (st : SkyPlotWidget) (h : keysND st.satellites) :
    keysND (SkyPlotWidget.processStep A st obs).satellites := by
  unfold SkyPlotWidget.processStep
  split
  · show keysND (storeSat obs.channel_id _ st.satellites)
    exact keysND_storeSat h
  · exact h

theorem SkyPlotWidget.keysND_foldl (A : ApproxModel) (b : List GnssSynchro)
    (st : SkyPlotWidget) (h : keysND st.satellites) :
    keysND ((b.foldl (SkyPlotWidget.processStep A) st)).satellites := by
  induction b generalizing st with
  | nil => exact h
  | cons o t ih =>
    rw [List.foldl_cons]
    exact ih _ (SkyPlotWidget.keysND_processStep A o st h)

theorem SkyPlotWidget.keysND_updateSatellites (A : ApproxModel)
    (b : List GnssSynchro) (st : SkyPlotWidget) (h : keysND st.satellites) :
    keysND (SkyPlotWidget.updateSatellites A b st).satellites := by
  simp only [SkyPlotWidget.updateSatellites]
  rw [SkyPlotWidget.recomputeStats_satellites]
  exact SkyPlotWidget.keysND_foldl A b _
    (keysND_map (fun r => { r with seenInThisUpdate := false }) h)

theorem SkyPlotWidget.keysND_cleanup (st : SkyPlotWidget)
    (h : keysND st.satellites) :
    keysND (SkyPlotWidget.cleanupStaleSatellites st).satellites :=
  keysND_filterMap _ h

theorem SkyPlotWidget.keysND_updateCycle (A : ApproxModel) (st : SkyPlotWidget)
    (b : List GnssSynchro) (h : keysND st.satellites) :
    keysND (SkyPlotWidget.updateCycle A st b).satellites :=
  SkyPlotWidget.keysND_cleanup _ (SkyPlotWidget.keysND_updateSatellites A b st h)

theorem SkyPlotWidget.findSat_cleanup (st : SkyPlotWidget) (c : Int)
    (h : keysND st.satellites) :
    findSat c (SkyPlotWidget.cleanupStaleSatellites st).satellites =
      (findSat c st.satellites).bind (SkyPlotWidget.cleanupSat st.maxMissedUpdates) := by
  show findSat c (st.satellites.filterMap _) = _
  exact findSat_filterMap _ c h

/-! ## Concrete inputs used by witnesses and counterexamples -/

/-- A concrete instantiation of the trigonometric tier (identically
zero), used only to evaluate witnesses and counterexamples. -/
def approxZero : ApproxModel where
  el := fun _ _ _ _ _ => 0
  az := fun _ _ _ _ _ => 0

/-- An active Galileo observation, prn 9, without measured position. -/
def obs9E : GnssSynchro where
  channel_id := 1
  prn := 9
  system := "E"
  signal := "1B"
  fs := 4000000
  cn0_db_hz := 42
  flag_valid_symbol_output := true
  rx_time := 0
  has_flag_valid_satellite_position := false
  flag_valid_satellite_position := false
  has_satellite_elevation_deg := false
  has_satellite_azimuth_deg := false
  satellite_elevation_deg := 0
  satellite_azimuth_deg := 0

/-- An active observation carrying a negative PRN (representable per the
spec, which types PRN as int). -/
def obsNegG : GnssSynchro := { obs9E with prn := -1, system := "G", signal := "1C" }

/-- An active GPS observation, prn 5, without measured position. -/
def obsG5 : GnssSynchro := { obs9E with prn := 5, system := "G", signal := "1C" }

/-- The spec scenario observation: prn 5, GPS, measured position valid,
elevation 45, azimuth 120. -/
def obsG5meas : GnssSynchro := { obsG5 with
  has_flag_valid_satellite_position := true
  flag_valid_satellite_position := true
  has_satellite_elevation_deg := true
  has_satellite_azimuth_deg := true
  satellite_elevation_deg := 45
  satellite_azimuth_deg := 120 }

/-- Channel 3 reporting PRN 11, then PRN 14 (spec property P5). -/
def obsC3p11 : GnssSynchro := { obsG5 with channel_id := 3, prn := 11 }

/-- Channel 3 reporting PRN 14 after PRN 11 (spec property P5). -/
def obsC3p14 : GnssSynchro := { obsG5 with channel_id := 3, prn := 14 }

/-- A fix that passes validation. -/
def pvtGood : MonitorPvt where
  latitude := 47
  longitude := 9
  height := 450
  rx_time := 100000

/-- The all zero (uninitialized) fix, rejected by validation. -/
def pvtZero : MonitorPvt where
  latitude := 0
  longitude := 0
  height := 0
  rx_time := 0

/-! ## C9 -/

/-- C9: the ephemeris round trip fails on the code as written.  The
constructor records the intended capacity 100 in m_bufferSize but never
resizes the default constructed boost::circular_buffer, whose capacity
stays 0; push_back on a zero capacity circular buffer inserts nothing,
so after any addGpsEphemeris the buffer is still empty and
getLastGpsEphemeris calls back() on an empty buffer (undefined
behaviour, modelled as none) instead of returning the value just
added. -/
theorem ephemeris_buffer_never_given_capacity :
    GpsEphemerisWrapper.init.m_bufferSize = 100 ∧
    GpsEphemerisWrapper.init.m_bufferEphemeris.capacity = 0 ∧
    ∀ e : GpsEphemeris,
      (GpsEphemerisWrapper.addGpsEphemeris e GpsEphemerisWrapper.init).getLastGpsEphemeris
        = none :=
  ⟨rfl, rfl, fun _ => rfl⟩

/-! ## C6 -/

/-- C6: updateReceiverPosition accepts a fix exactly when latitude lies
in [-90, 90], longitude lies in [-180, 180], and not both coordinates
are within 0.001 of zero (fixValid); an accepted fix replaces the five
stored receiver fields, and a rejected fix leaves the whole state, in
particular every stored receiver field, unchanged. -/
theorem updateReceiverPosition_validation (pvt : MonitorPvt) (st : SkyPlotWidget) :
    (SkyPlotWidget.fixValid pvt →
      SkyPlotWidget.updateReceiverPosition pvt st =
        { st with
          receiverLat := pvt.latitude
          receiverLon := pvt.longitude
          receiverHeight := pvt.height
          currentGpsTime := pvt.rx_time
          hasReceiverPosition := true }) ∧
    (¬ SkyPlotWidget.fixValid pvt →
      SkyPlotWidget.updateReceiverPosition pvt st = st) := by
  constructor <;> intro h <;> simp [SkyPlotWidget.updateReceiverPosition, h]

/-- C6 witness: the validation theorem applied to an accepted fix and to
the all zero rejected fix, both on the freshly constructed widget. -/
theorem updateReceiverPosition_validation_witness :
    SkyPlotWidget.fixValid pvtGood ∧
    ¬ SkyPlotWidget.fixValid pvtZero ∧
    SkyPlotWidget.updateReceiverPosition pvtGood SkyPlotWidget.initState =
      { SkyPlotWidget.initState with
        receiverLat := pvtGood.latitude
        receiverLon := pvtGood.longitude
        receiverHeight := pvtGood.height
        currentGpsTime := pvtGood.rx_time
        hasReceiverPosition := true } ∧
    SkyPlotWidget.updateReceiverPosition pvtZero SkyPlotWidget.initState =
      SkyPlotWidget.initState :=
  ⟨by decide, by decide,
    (updateReceiverPosition_validation pvtGood SkyPlotWidget.initState).1 (by decide),
    (updateReceiverPosition_validation pvtZero SkyPlotWidget.initState).2 (by decide)⟩

/-! ## C8 -/

/-- C8 (amended to the real widget variant): in src/src/skyplot_widget.cpp
updateReceiverPosition leaves the satellite table exactly as it was,
whether the fix is accepted or rejected: the recompute loop at lines
147-157 writes only two local variables.  Positions catch up on the
next batch. -/
theorem updateReceiverPosition_keeps_records (pvt : MonitorPvt) (st : SkyPlotWidget) :
    (SkyPlotWidget.updateReceiverPosition pvt st).satellites = st.satellites :=
  SkyPlotWidget.updateReceiverPosition_satellites pvt st

/-- C8 counterexample: in the simplified variant
(src/unnamed/part_001 lines 65-85) an incoming fix is unconditionally
accepted and the elevation and azimuth of every tracked record are
synchronously rewritten from the trigonometric tier (here instantiated
at approxZero): the record at channel 1 had elevation 50 before the fix
and elevation 0 after it, so the claim that applyReceiverFix never
modifies any existing satellite record fails on that variant. -/
theorem updateReceiverPositionV2_rewrites_records :
    (findSat 1 (updateReceiverPositionV2 approxZero pvtGood
        ⟨[(1, ⟨5, "G", "1C", 50, 120, 40, true, 1, true⟩)], 0, 0, 0, 0, false⟩).satellites).map
      (fun r => r.elevation) = some 0 ∧
    (findSat 1 (⟨[(1, ⟨5, "G", "1C", 50, 120, 40, true, 1, true⟩)], 0, 0, 0, 0, false⟩ :
        SkyPlotWidgetV2).satellites).map (fun r => r.elevation) = some 50 := by
  decide

/-! ## C10 -/

/-- C10: processSatellite (invoked for every observation with nonzero
sampling frequency) always leaves the record of the observation channel
with a position source different from NONE: one of the three tiers is
accepted, or the unconditional fallback branch tags the record
FALLBACK, or the previous position with its non NONE tag is kept. -/
theorem processed_record_has_source (A : ApproxModel) (obs : GnssSynchro)
    (st : SkyPlotWidget) :
    ∃ r, findSat obs.channel_id
        (SkyPlotWidget.processSatellite A obs st).satellites = some r ∧
      r.positionSource ≠ PositionSource.NONE := by
  simp only [SkyPlotWidget.processSatellite]
  rcases hF : findSat obs.channel_id st.satellites with _ | s0 <;>
    simp only [hF] <;>
    refine ⟨_, findSat_storeSat_self _ _ _, ?_⟩ <;>
    repeat' split
  all_goals first | assumption | simp

/-! ## C2 -/

/-- C2: for an observation whose measured satellite position is present
(both presence flags set), flagged valid, and in range, processSatellite
stores exactly the measured elevation and azimuth with provenance REAL.
The state is arbitrary, so this holds both when a receiver fix is held
and when none is held. -/
theorem measured_tier_wins (A : ApproxModel) (st : SkyPlotWidget) (obs : GnssSynchro)
    (h1 : obs.has_flag_valid_satellite_position = true)
    (h2 : obs.flag_valid_satellite_position = true)
    (h3 : obs.has_satellite_elevation_deg = true)
    (h4 : obs.has_satellite_azimuth_deg = true)
    (h5 : 0 ≤ obs.satellite_elevation_deg)
    (h6 : obs.satellite_elevation_deg ≤ 90)
    (h7 : 0 ≤ obs.satellite_azimuth_deg)
    (h8 : obs.satellite_azimuth_deg < 360) :
    ∃ r, findSat obs.channel_id
        (SkyPlotWidget.processSatellite A obs st).satellites = some r ∧
      r.elevation = obs.satellite_elevation_deg ∧
      r.azimuth = obs.satellite_azimuth_deg ∧
      r.positionSource = PositionSource.REAL := by
  have hE : SkyPlotWidget.extractRealPosition obs =
      some (obs.satellite_elevation_deg, obs.satellite_azimuth_deg) := by
    simp only [SkyPlotWidget.extractRealPosition, h1, h2, h3, h4, Bool.and_self, if_true]
    rw [if_pos ⟨h5, h6, h7, h8⟩]
  simp only [SkyPlotWidget.processSatellite, hE]
  rw [if_pos ⟨h5, h6, h7, h8⟩]
  exact ⟨_, findSat_storeSat_self _ _ _, rfl, rfl, rfl⟩

/-- C2 witness: the spec scenario observation (prn 5, GPS, measured
elevation 45 and azimuth 120) processed on the fresh widget (no fix
held) and on the widget holding an accepted fix. -/
theorem measured_tier_wins_witness :
    (obsG5meas.has_flag_valid_satellite_position = true ∧
      obsG5meas.flag_valid_satellite_position = true ∧
      obsG5meas.has_satellite_elevation_deg = true ∧
      obsG5meas.has_satellite_azimuth_deg = true ∧
      0 ≤ obsG5meas.satellite_elevation_deg ∧
      obsG5meas.satellite_elevation_deg ≤ 90 ∧
      0 ≤ obsG5meas.satellite_azimuth_deg ∧
      obsG5meas.satellite_azimuth_deg < 360) ∧
    (∃ r, findSat obsG5meas.channel_id
        (SkyPlotWidget.processSatellite approxZero obsG5meas
          SkyPlotWidget.initState).satellites = some r ∧
      r.elevation = obsG5meas.satellite_elevation_deg ∧
      r.azimuth = obsG5meas.satellite_azimuth_deg ∧
      r.positionSource = PositionSource.REAL) ∧
    (∃ r, findSat obsG5meas.channel_id
        (SkyPlotWidget.processSatellite approxZero obsG5meas
          (SkyPlotWidget.updateReceiverPosition pvtGood
            SkyPlotWidget.initState)).satellites = some r ∧
      r.elevation = obsG5meas.satellite_elevation_deg ∧
      r.azimuth = obsG5meas.satellite_azimuth_deg ∧
      r.positionSource = PositionSource.REAL) :=
  ⟨by decide,
    measured_tier_wins approxZero SkyPlotWidget.initState obsG5meas
      (by decide) (by decide) (by decide) (by decide)
      (by decide) (by decide) (by decide) (by decide),
    measured_tier_wins approxZero
      (SkyPlotWidget.updateReceiverPosition pvtGood SkyPlotWidget.initState) obsG5meas
      (by decide) (by decide) (by decide) (by decide)
      (by decide) (by decide) (by decide) (by decide)⟩

/-! ## C7 -/

/-- The fallback tier formula exactly as the spec states it (section 4.2
and section 8), with mod read as the mathematical remainder into
[0, n): elevation 20 + (prn*7 mod 60); azimuth (prn*23 mod 360) plus
the constellation offset (Galileo +90, GLONASS +180, BeiDou +270, all
others +0), normalized into [0, 360).  A function of PRN and
constellation only.  Stated for comparison with
computeFallbackPosition. -/
def fallbackSpecFormula (prn : Int) (system : String) : Rat × Rat :=
  let offset : Int :=
    if system = "E" then 90
    else if system = "R" then 180
    else if system = "C" then 270
    else 0
  (((20 + (prn * 7) % 60 : Int) : Rat), ((((prn * 23) % 360 + offset) % 360 : Int) : Rat))

/-- C7 (amended to nonnegative PRN): for every observation with a
nonnegative PRN the fallback tier computes exactly the spec formula,
a function of PRN and constellation alone (hence no dependence on time
or receiver position), with the azimuth normalized into [0, 360). -/
theorem fallback_matches_spec_formula (obs : GnssSynchro) (h : 0 ≤ obs.prn) :
    SkyPlotWidget.computeFallbackPosition obs =
      fallbackSpecFormula obs.prn obs.system ∧
    0 ≤ (SkyPlotWidget.computeFallbackPosition obs).2 ∧
    (SkyPlotWidget.computeFallbackPosition obs).2 < 360 := by
  have h7 : (0 : Int) ≤ obs.prn * 7 := mul_nonneg h (by norm_num)
  have h23 : (0 : Int) ≤ obs.prn * 23 := mul_nonneg h (by norm_num)
  have t7 : Int.tmod (obs.prn * 7) 60 = (obs.prn * 7) % 60 :=
    Int.tmod_eq_emod h7 (by norm_num)
  have t23 : Int.tmod (obs.prn * 23) 360 = (obs.prn * 23) % 360 :=
    Int.tmod_eq_emod h23 (by norm_num)
  have haz0 : (0 : Int) ≤ (obs.prn * 23) % 360 := Int.emod_nonneg _ (by norm_num)
  have haz0lt : (obs.prn * 23) % 360 < 360 := Int.emod_lt_of_pos _ (by norm_num)
  have hsndE : (SkyPlotWidget.computeFallbackPosition obs).2 =
      (((if obs.system = "E" then
            Int.tmod (Int.tmod (obs.prn * 23) 360 + 90) 360
          else if obs.system = "R" then
            Int.tmod (Int.tmod (obs.prn * 23) 360 + 180) 360
          else if obs.system = "C" then
            Int.tmod (Int.tmod (obs.prn * 23) 360 + 270) 360
          else Int.tmod (obs.prn * 23) 360 : Int)) : Rat) := rfl
  have hoff : ∀ off : Int, 0 ≤ off →
      Int.tmod ((obs.prn * 23) % 360 + off) 360 = ((obs.prn * 23) % 360 + off) % 360 :=
    fun off hoff => Int.tmod_eq_emod (add_nonneg haz0 hoff) (by norm_num)
  refine ⟨?_, ?_, ?_⟩
  · rw [Prod.ext_iff]
    constructor
    · show ((20 + Int.tmod (obs.prn * 7) 60 : Int) : Rat) =
        ((20 + (obs.prn * 7) % 60 : Int) : Rat)
      rw [t7]
    · rw [hsndE]
      show _ = ((((obs.prn * 23) % 360 +
          (if obs.system = "E" then (90 : Int)
            else if obs.system = "R" then 180
            else if obs.system = "C" then 270 else 0)) % 360 : Int) : Rat)
      rw [t23]
      split_ifs with hE hR hC
      · exact_mod_cast hoff 90 (by norm_num)
      · exact_mod_cast hoff 180 (by norm_num)
      · exact_mod_cast hoff 270 (by norm_num)
      · rw [add_zero]
        exact_mod_cast (Int.emod_emod_of_dvd _ dvd_rfl).symm
  · rw [hsndE, t23]
    split_ifs with hE hR hC
    · rw [hoff 90 (by norm_num)]
      exact_mod_cast Int.emod_nonneg _ (by norm_num)
    · rw [hoff 180 (by norm_num)]
      exact_mod_cast Int.emod_nonneg _ (by norm_num)
    · rw [hoff 270 (by norm_num)]
      exact_mod_cast Int.emod_nonneg _ (by norm_num)
    · exact_mod_cast haz0
  · rw [hsndE, t23]
    split_ifs with hE hR hC
    · rw [hoff 90 (by norm_num)]
      exact_mod_cast Int.emod_lt_of_pos _ (by norm_num)
    · rw [hoff 180 (by norm_num)]
      exact_mod_cast Int.emod_lt_of_pos _ (by norm_num)
    · rw [hoff 270 (by norm_num)]
      exact_mod_cast Int.emod_lt_of_pos _ (by norm_num)
    · exact_mod_cast haz0lt

/-- C7 witness: the spec scenario prn 9, system E gives elevation 23 and
azimuth 297. -/
theorem fallback_matches_spec_formula_witness :
    0 ≤ obs9E.prn ∧
    SkyPlotWidget.computeFallbackPosition obs9E = ((23 : Rat), (297 : Rat)) :=
  ⟨by decide, ((fallback_matches_spec_formula obs9E (by decide)).1).trans (by decide)⟩

/-- C7 counterexample: at PRN -1 (representable, since the spec types
PRN as int) and system G the code computes azimuth fmod(-23, 360) = -23,
which is neither the mathematical remainder formula of the claim nor
normalized into [0, 360). -/
theorem fallback_negative_prn_cex :
    SkyPlotWidget.computeFallbackPosition obsNegG = ((13 : Rat), (-23 : Rat)) ∧
    SkyPlotWidget.computeFallbackPosition obsNegG ≠ fallbackSpecFormula (-1) "G" ∧
    ¬ 0 ≤ (SkyPlotWidget.computeFallbackPosition obsNegG).2 := by
  decide

/-! ## C5 -/

/-- C5: on a PRN change for an existing channel (stored PRN nonzero and
different from the incoming PRN), the position of the previous occupant
never survives: the processed record is the same whatever elevation,
azimuth and position source the old record held, because
processSatellite resets positionSource to NONE before resolving, which
makes the retain branch of the position update unreachable.  The two
states must agree on the fields the resolver reads (fix flag, receiver
latitude and longitude). -/
theorem prn_change_resets_position (A : ApproxModel) (obs : GnssSynchro)
    (st st2 : SkyPlotWidget) (r : SatelliteInfo) (e a : Rat) (s2 : PositionSource)
    (hr : findSat obs.channel_id st.satellites = some r)
    (hprn0 : r.prn ≠ (0 : Int)) (hprn : r.prn ≠ obs.prn)
    (hr2 : findSat obs.channel_id st2.satellites =
      some { r with elevation := e, azimuth := a, positionSource := s2 })
    (hfix : st2.hasReceiverPosition = st.hasReceiverPosition)
    (hlat : st2.receiverLat = st.receiverLat)
    (hlon : st2.receiverLon = st.receiverLon) :
    findSat obs.channel_id (SkyPlotWidget.processSatellite A obs st).satellites =
      findSat obs.channel_id (SkyPlotWidget.processSatellite A obs st2).satellites := by
  have hcond : r.prn ≠ (0 : Int) ∧ r.prn ≠ obs.prn := ⟨hprn0, hprn⟩
  simp only [SkyPlotWidget.processSatellite, hr, hr2,
    SkyPlotWidget.computeApproximatePosition, hfix, hlat, hlon]
  rw [findSat_storeSat_self, findSat_storeSat_self]
  simp only [if_pos hcond]
  congr 1

/-- The channel 3 record left by a batch carrying PRN 11 (fallback
position of PRN 11: elevation 37, azimuth 253). -/
def satC3p11 : SatelliteInfo where
  prn := 11
  system := "G"
  signal := "1C"
  channel_id := 3
  elevation := 37
  azimuth := 253
  positionSource := PositionSource.FALLBACK
  cn0 := 42
  valid := true
  seenInThisUpdate := true
  missedUpdates := 0

/-- A widget state tracking PRN 11 on channel 3. -/
def stC3p11 : SkyPlotWidget := { SkyPlotWidget.initState with satellites := [(3, satC3p11)] }

/-- The same state with the channel 3 record given a different position
(elevation 88, azimuth 1, source REAL). -/
def stC3p11var : SkyPlotWidget := { SkyPlotWidget.initState with
  satellites := [(3, { satC3p11 with
    elevation := 88
    azimuth := 1
    positionSource := PositionSource.REAL })] }

/-- C5 witness: processing PRN 14 on channel 3 gives the same record
whether the PRN 11 occupant held its fallback position or a completely
different REAL position. -/
theorem prn_change_resets_position_witness :
    findSat obsC3p14.channel_id stC3p11.satellites = some satC3p11 ∧
    satC3p11.prn ≠ (0 : Int) ∧
    satC3p11.prn ≠ obsC3p14.prn ∧
    findSat obsC3p14.channel_id
        (SkyPlotWidget.processSatellite approxZero obsC3p14 stC3p11).satellites =
      findSat obsC3p14.channel_id
        (SkyPlotWidget.processSatellite approxZero obsC3p14 stC3p11var).satellites :=
  ⟨by decide, by decide, by decide,
    prn_change_resets_position approxZero obsC3p14 stC3p11 stC3p11var satC3p11
      88 1 PositionSource.REAL (by decide) (by decide) (by decide) (by decide)
      (by decide) (by decide) (by decide)⟩

/-! ## C4 -/

/-- C4 counterexample: updateSatellites itself neither increments
missedUpdates nor evicts.  Starting from the fresh widget, one batch
creates the channel 1 record, then six consecutive empty batches leave
it untouched: it is still present with seenInThisUpdate false and
missedUpdates 0, although the claim requires missedUpdates to grow by
one per batch and the record to be evicted once the count exceeds the
default maximum 5. -/
theorem updateSatellites_does_not_mark_or_evict :
    (findSat 1 (applyOps approxZero
        (Operation.updateSatellites [obsG5] ::
          List.replicate 6 (Operation.updateSatellites []))
        SkyPlotWidget.initState).satellites).map
      (fun r => (r.seenInThisUpdate, r.missedUpdates)) = some (false, 0) := by
  decide

/-- C4 (amended): the marking and eviction are not part of
updateSatellites; they are performed by cleanupStaleSatellites, which
runs from the deferred repaint timer armed by updateSatellites
(constructor, skyplot_widget.cpp lines 106-115) or from the public
clearStale slot: one cleanup pass leaves a record seen this update
untouched, and otherwise increments missedUpdates by exactly one and
evicts the record precisely when the new count exceeds the configured
maximum. -/
theorem clearStale_marks_and_evicts (st : SkyPlotWidget) (c : Int)
    (r : SatelliteInfo) (hND : keysND st.satellites)
    (hr : findSat c st.satellites = some r) :
    findSat c (SkyPlotWidget.clearStale st).satellites =
      (if r.seenInThisUpdate then some r
        else if r.missedUpdates + 1 > st.maxMissedUpdates then none
        else some { r with missedUpdates := r.missedUpdates + 1 }) := by
  unfold SkyPlotWidget.clearStale
  rw [SkyPlotWidget.findSat_cleanup st c hND, hr]
  rfl

/-- C4 witness: the cleanup rule applied to a state holding one unseen
channel 3 record with missedUpdates 0 and the default maximum 5: the
record survives with missedUpdates 1. -/
theorem clearStale_marks_and_evicts_witness :
    keysND (SkyPlotWidget.updateSatellites approxZero [] stC3p11).satellites ∧
    findSat 3 (SkyPlotWidget.updateSatellites approxZero [] stC3p11).satellites =
      some { satC3p11 with seenInThisUpdate := false } ∧
    findSat 3 (SkyPlotWidget.clearStale
        (SkyPlotWidget.updateSatellites approxZero [] stC3p11)).satellites =
      (if ({ satC3p11 with seenInThisUpdate := false } : SatelliteInfo).seenInThisUpdate
        then some { satC3p11 with seenInThisUpdate := false }
        else if ({ satC3p11 with seenInThisUpdate := false } : SatelliteInfo).missedUpdates + 1 >
            (SkyPlotWidget.updateSatellites approxZero [] stC3p11).maxMissedUpdates
          then none
        else some { { satC3p11 with seenInThisUpdate := false } with
          missedUpdates := ({ satC3p11 with seenInThisUpdate := false } :
            SatelliteInfo).missedUpdates + 1 }) :=
  ⟨by decide, by decide,
    clearStale_marks_and_evicts (SkyPlotWidget.updateSatellites approxZero [] stC3p11) 3
      { satC3p11 with seenInThisUpdate := false } (by decide) (by decide)⟩

/-! ## C3 -/

theorem SkyPlotWidget.updateCycle_absent_none (A : ApproxModel) {c : Int}
    (st : SkyPlotWidget) (b : List GnssSynchro)
    (hND : keysND st.satellites)
    (habs : ∀ o ∈ b, o.channel_id ≠ c)
    (h : findSat c st.satellites = none) :
    findSat c (SkyPlotWidget.updateCycle A st b).satellites = none := by
  unfold SkyPlotWidget.updateCycle
  rw [SkyPlotWidget.findSat_cleanup _ c (SkyPlotWidget.keysND_updateSatellites A b st hND),
    SkyPlotWidget.findSat_updateSatellites_absent A b st habs, h]
  rfl

theorem SkyPlotWidget.updateCycle_absent_some (A : ApproxModel) {c : Int}
    (st : SkyPlotWidget) (b : List GnssSynchro) (r : SatelliteInfo)
    (hND : keysND st.satellites)
    (habs : ∀ o ∈ b, o.channel_id ≠ c)
    (h : findSat c st.satellites = some r) :
    findSat c (SkyPlotWidget.updateCycle A st b).satellites =
      (if r.missedUpdates + 1 > st.maxMissedUpdates then none
        else some { r with seenInThisUpdate := false, missedUpdates := r.missedUpdates + 1 }) := by
  unfold SkyPlotWidget.updateCycle
  rw [SkyPlotWidget.findSat_cleanup _ c (SkyPlotWidget.keysND_updateSatellites A b st hND),
    SkyPlotWidget.findSat_updateSatellites_absent A b st habs, h,
    SkyPlotWidget.updateSatellites_maxMissed]
  rfl

theorem SkyPlotWidget.applyCycles_none (A : ApproxModel) {c : Int}
    (bs : List (List GnssSynchro)) (st : SkyPlotWidget)
    (hND : keysND st.satellites)
    (habs : ∀ b ∈ bs, ∀ o ∈ b, o.channel_id ≠ c)
    (h : findSat c st.satellites = none) :
    findSat c (SkyPlotWidget.applyCycles A bs st).satellites = none := by
  induction bs generalizing st with
  | nil => exact h
  | cons b bs ih =>
    show findSat c (SkyPlotWidget.applyCycles A bs
        (SkyPlotWidget.updateCycle A st b)).satellites = none
    exact ih _ (SkyPlotWidget.keysND_updateCycle A st b hND)
      (fun b1 hb1 => habs b1 (List.mem_cons_of_mem _ hb1))
      (SkyPlotWidget.updateCycle_absent_none A st b hND
        (habs b (List.mem_cons_self _ _)) h)

theorem SkyPlotWidget.applyCycles_kept (A : ApproxModel) {c : Int}
    (bs : List (List GnssSynchro)) (st : SkyPlotWidget) (r : SatelliteInfo)
    (hND : keysND st.satellites)
    (habs : ∀ b ∈ bs, ∀ o ∈ b, o.channel_id ≠ c)
    (h : findSat c st.satellites = some r)
    (hin : r.missedUpdates + (bs.length : Int) ≤ st.maxMissedUpdates)
    (hne : bs ≠ []) :
    findSat c (SkyPlotWidget.applyCycles A bs st).satellites =
      some { r with seenInThisUpdate := false, missedUpdates := r.missedUpdates + (bs.length : Int) } := by
  induction bs generalizing st r with
  | nil => exact absurd rfl hne
  | cons b bs ih =>
    have hND2 := SkyPlotWidget.keysND_updateCycle A st b hND
    have htail : ∀ b1 ∈ bs, ∀ o ∈ b1, o.channel_id ≠ c :=
      fun b1 hb1 => habs b1 (List.mem_cons_of_mem _ hb1)
    have hhead : ∀ o ∈ b, o.channel_id ≠ c := habs b (List.mem_cons_self _ _)
    have hstep := SkyPlotWidget.updateCycle_absent_some A st b r hND hhead h
    have hkeep : ¬ (r.missedUpdates + 1 > st.maxMissedUpdates) := by
      simp only [List.length_cons] at hin
      push_cast at hin
      omega
    rw [if_neg hkeep] at hstep
    show findSat c (SkyPlotWidget.applyCycles A bs
        (SkyPlotWidget.updateCycle A st b)).satellites = _
    rcases eq_or_ne bs [] with hbs | hbs
    · subst hbs
      simpa using hstep
    · have hin2 : ({ r with seenInThisUpdate := false, missedUpdates := r.missedUpdates + 1 } : SatelliteInfo).missedUpdates +
            ((bs.length : Int)) ≤ (SkyPlotWidget.updateCycle A st b).maxMissedUpdates := by
        rw [SkyPlotWidget.updateCycle_maxMissed]
        show r.missedUpdates + 1 + (bs.length : Int) ≤ st.maxMissedUpdates
        simp only [List.length_cons] at hin
        push_cast at hin
        omega
      rw [ih _ _ hND2 htail hstep hin2 hbs]
      simp only [Option.some.injEq, SatelliteInfo.mk.injEq, List.length_cons, and_true, true_and]
      push_cast
      omega

theorem SkyPlotWidget.applyCycles_evicted (A : ApproxModel) {c : Int}
    (bs : List (List GnssSynchro)) (st : SkyPlotWidget) (r : SatelliteInfo)
    (hND : keysND st.satellites)
    (habs : ∀ b ∈ bs, ∀ o ∈ b, o.channel_id ≠ c)
    (h : findSat c st.satellites = some r)
    (hstart : r.missedUpdates ≤ st.maxMissedUpdates)
    (hcross : st.maxMissedUpdates < r.missedUpdates + (bs.length : Int)) :
    findSat c (SkyPlotWidget.applyCycles A bs st).satellites = none := by
  induction bs generalizing st r with
  | nil =>
    exfalso
    simp only [List.length_nil] at hcross
    push_cast at hcross
    omega
  | cons b bs ih =>
    have hND2 := SkyPlotWidget.keysND_updateCycle A st b hND
    have htail : ∀ b1 ∈ bs, ∀ o ∈ b1, o.channel_id ≠ c :=
      fun b1 hb1 => habs b1 (List.mem_cons_of_mem _ hb1)
    have hhead : ∀ o ∈ b, o.channel_id ≠ c := habs b (List.mem_cons_self _ _)
    have hstep := SkyPlotWidget.updateCycle_absent_some A st b r hND hhead h
    show findSat c (SkyPlotWidget.applyCycles A bs
        (SkyPlotWidget.updateCycle A st b)).satellites = none
    by_cases hev : r.missedUpdates + 1 > st.maxMissedUpdates
    · rw [if_pos hev] at hstep
      exact SkyPlotWidget.applyCycles_none A bs _ hND2 htail hstep
    · rw [if_neg hev] at hstep
      refine ih _ _ hND2 htail hstep ?_ ?_
      · rw [SkyPlotWidget.updateCycle_maxMissed]
        show r.missedUpdates + 1 ≤ st.maxMissedUpdates
        omega
      · rw [SkyPlotWidget.updateCycle_maxMissed]
        show st.maxMissedUpdates < r.missedUpdates + 1 + (bs.length : Int)
        simp only [List.length_cons] at hcross
        push_cast at hcross
        omega

/-- C3: a freshly refreshed record (missedUpdates 0) whose channel is
absent from every following batch is still present after exactly
maxMissedUpdates update cycles (each cycle being one batch plus the
deferred cleanup tick), carrying missedUpdates = maxMissedUpdates, and
is absent after exactly maxMissedUpdates + 1 such cycles: eviction
happens precisely when missedUpdates exceeds the configured maximum
(default 5). -/
theorem eviction_threshold (A : ApproxModel) {c : Int} (st : SkyPlotWidget)
    (r : SatelliteInfo) (bs1 bs2 : List (List GnssSynchro))
    (hND : keysND st.satellites)
    (hr : findSat c st.satellites = some r)
    (h0 : r.missedUpdates = 0)
    (hmax : 0 ≤ st.maxMissedUpdates)
    (habs1 : ∀ b ∈ bs1, ∀ o ∈ b, o.channel_id ≠ c)
    (habs2 : ∀ b ∈ bs2, ∀ o ∈ b, o.channel_id ≠ c)
    (hlen1 : (bs1.length : Int) = st.maxMissedUpdates)
    (hlen2 : (bs2.length : Int) = st.maxMissedUpdates + 1) :
    (∃ r1, findSat c (SkyPlotWidget.applyCycles A bs1 st).satellites = some r1 ∧
      r1.missedUpdates = st.maxMissedUpdates) ∧
    findSat c (SkyPlotWidget.applyCycles A bs2 st).satellites = none := by
  constructor
  · rcases eq_or_ne bs1 [] with hbs | hbs
    · subst hbs
      refine ⟨r, hr, ?_⟩
      simp only [List.length_nil, Nat.cast_zero] at hlen1
      omega
    · refine ⟨_, SkyPlotWidget.applyCycles_kept A bs1 st r hND habs1 hr (by omega) hbs, ?_⟩
      show r.missedUpdates + (bs1.length : Int) = st.maxMissedUpdates
      omega
  · exact SkyPlotWidget.applyCycles_evicted A bs2 st r hND habs2 hr (by omega) (by omega)

/-- The channel 1 record created by processing obsG5 on the fresh widget
(fallback position of PRN 5: elevation 55, azimuth 115). -/
def satG5 : SatelliteInfo where
  prn := 5
  system := "G"
  signal := "1C"
  channel_id := 1
  elevation := 55
  azimuth := 115
  positionSource := PositionSource.FALLBACK
  cn0 := 42
  valid := true
  seenInThisUpdate := true
  missedUpdates := 0

/-- C3 witness: the channel 1 record created by one batch survives five
channel free update cycles holding missedUpdates 5 (the default
maximum), and is gone after six such cycles. -/
theorem eviction_threshold_witness :
    (keysND (SkyPlotWidget.updateSatellites approxZero [obsG5]
        SkyPlotWidget.initState).satellites ∧
      findSat 1 (SkyPlotWidget.updateSatellites approxZero [obsG5]
        SkyPlotWidget.initState).satellites = some satG5 ∧
      satG5.missedUpdates = 0 ∧
      0 ≤ (SkyPlotWidget.updateSatellites approxZero [obsG5]
        SkyPlotWidget.initState).maxMissedUpdates ∧
      ((List.replicate 5 ([] : List GnssSynchro)).length : Int) =
        (SkyPlotWidget.updateSatellites approxZero [obsG5]
          SkyPlotWidget.initState).maxMissedUpdates ∧
      ((List.replicate 6 ([] : List GnssSynchro)).length : Int) =
        (SkyPlotWidget.updateSatellites approxZero [obsG5]
          SkyPlotWidget.initState).maxMissedUpdates + 1) ∧
    ((∃ r1, findSat 1 (SkyPlotWidget.applyCycles approxZero
          (List.replicate 5 ([] : List GnssSynchro))
          (SkyPlotWidget.updateSatellites approxZero [obsG5]
            SkyPlotWidget.initState)).satellites = some r1 ∧
        r1.missedUpdates = (SkyPlotWidget.updateSatellites approxZero [obsG5]
          SkyPlotWidget.initState).maxMissedUpdates) ∧
      findSat 1 (SkyPlotWidget.applyCycles approxZero
          (List.replicate 6 ([] : List GnssSynchro))
          (SkyPlotWidget.updateSatellites approxZero [obsG5]
            SkyPlotWidget.initState)).satellites = none) :=
  ⟨⟨by decide, by decide, by decide, by decide, by decide, by decide⟩,
    eviction_threshold approxZero
      (SkyPlotWidget.updateSatellites approxZero [obsG5] SkyPlotWidget.initState)
      satG5 (List.replicate 5 []) (List.replicate 6 [])
      (by decide) (by decide) (by decide) (by decide)
      (by decide) (by decide) (by decide) (by decide)⟩

/-! ## C1 -/

/-- The range invariant P1 of the spec: every record whose position
source is not NONE has elevation in [0, 90] and azimuth in [0, 360). -/
def RangeInv (st : SkyPlotWidget) : Prop :=
  ∀ p ∈ st.satellites, (p : Int × SatelliteInfo).2.positionSource ≠ PositionSource.NONE →
    0 ≤ p.2.elevation ∧ p.2.elevation ≤ 90 ∧ 0 ≤ p.2.azimuth ∧ p.2.azimuth < 360

instance (st : SkyPlotWidget) : Decidable (RangeInv st) := by
  unfold RangeInv; infer_instance

/-- For a nonnegative PRN the fallback position is always in range
(elevation in [20, 80) and azimuth in [0, 360)). -/
theorem SkyPlotWidget.computeFallbackPosition_in_range (obs : GnssSynchro)
    (h : 0 ≤ obs.prn) :
    0 ≤ (SkyPlotWidget.computeFallbackPosition obs).1 ∧
    (SkyPlotWidget.computeFallbackPosition obs).1 ≤ 90 ∧
    0 ≤ (SkyPlotWidget.computeFallbackPosition obs).2 ∧
    (SkyPlotWidget.computeFallbackPosition obs).2 < 360 := by
  have h7 : (0 : Int) ≤ obs.prn * 7 := mul_nonneg h (by norm_num)
  have h23 : (0 : Int) ≤ obs.prn * 23 := mul_nonneg h (by norm_num)
  have t7 : Int.tmod (obs.prn * 7) 60 = (obs.prn * 7) % 60 :=
    Int.tmod_eq_emod h7 (by norm_num)
  have t23 : Int.tmod (obs.prn * 23) 360 = (obs.prn * 23) % 360 :=
    Int.tmod_eq_emod h23 (by norm_num)
  have h60a : (0 : Int) ≤ (obs.prn * 7) % 60 := Int.emod_nonneg _ (by norm_num)
  have h60b : (obs.prn * 7) % 60 < 60 := Int.emod_lt_of_pos _ (by norm_num)
  have haz0 : (0 : Int) ≤ (obs.prn * 23) % 360 := Int.emod_nonneg _ (by norm_num)
  have haz0lt : (obs.prn * 23) % 360 < 360 := Int.emod_lt_of_pos _ (by norm_num)
  have hoff : ∀ off : Int, 0 ≤ off →
      Int.tmod ((obs.prn * 23) % 360 + off) 360 = ((obs.prn * 23) % 360 + off) % 360 :=
    fun off hoff => Int.tmod_eq_emod (add_nonneg haz0 hoff) (by norm_num)
  have hfst : (SkyPlotWidget.computeFallbackPosition obs).1 =
      ((20 + Int.tmod (obs.prn * 7) 60 : Int) : Rat) := rfl
  have hsndE : (SkyPlotWidget.computeFallbackPosition obs).2 =
      (((if obs.system = "E" then
            Int.tmod (Int.tmod (obs.prn * 23) 360 + 90) 360
          else if obs.system = "R" then
            Int.tmod (Int.tmod (obs.prn * 23) 360 + 180) 360
          else if obs.system = "C" then
            Int.tmod (Int.tmod (obs.prn * 23) 360 + 270) 360
          else Int.tmod (obs.prn * 23) 360 : Int)) : Rat) := rfl
  refine ⟨?_, ?_, ?_, ?_⟩
  · rw [hfst, t7]
    have hz : (0 : Int) ≤ 20 + (obs.prn * 7) % 60 := by omega
    exact_mod_cast hz
  · rw [hfst, t7]
    have hz : (20 + (obs.prn * 7) % 60 : Int) ≤ 90 := by omega
    exact_mod_cast hz
  · rw [hsndE, t23]
    split_ifs with hE hR hC
    · rw [hoff 90 (by norm_num)]
      exact_mod_cast Int.emod_nonneg _ (by norm_num)
    · rw [hoff 180 (by norm_num)]
      exact_mod_cast Int.emod_nonneg _ (by norm_num)
    · rw [hoff 270 (by norm_num)]
      exact_mod_cast Int.emod_nonneg _ (by norm_num)
    · exact_mod_cast haz0
  · rw [hsndE, t23]
    split_ifs with hE hR hC
    · rw [hoff 90 (by norm_num)]
      exact_mod_cast Int.emod_lt_of_pos _ (by norm_num)
    · rw [hoff 180 (by norm_num)]
      exact_mod_cast Int.emod_lt_of_pos _ (by norm_num)
    · rw [hoff 270 (by norm_num)]
      exact_mod_cast Int.emod_lt_of_pos _ (by norm_num)
    · exact_mod_cast haz0lt

/-- processSatellite preserves the range invariant for observations with
a nonnegative PRN: a stored position passed the range check, or is a
fresh in range fallback, or is the retained old position, in range by
the invariant. -/
theorem SkyPlotWidget.rangeInv_processSatellite (A : ApproxModel)
    (obs : GnssSynchro) (st : SkyPlotWidget) (hprn : 0 ≤ obs.prn)
    (hinv : RangeInv st) :
    RangeInv (SkyPlotWidget.processSatellite A obs st) := by
  intro p hp hsrc
  simp only [SkyPlotWidget.processSatellite] at hp
  rcases mem_storeSat hp with hold | hnew
  · exact hinv p hold hsrc
  · subst hnew
    revert hsrc
    rcases hF : findSat obs.channel_id st.satellites with _ | s0 <;>
      simp only [hF] <;>
      repeat' split
    all_goals intro hsrc
    all_goals try dsimp only
    all_goals first
      | exact absurd rfl hsrc
      | assumption
      | exact SkyPlotWidget.computeFallbackPosition_in_range obs hprn
      | exact hinv _ (findSat_mem hF) hsrc
      | simp_all

theorem rangeInv_of_satellites_eq {st1 st2 : SkyPlotWidget}
    (h : st2.satellites = st1.satellites) (hinv : RangeInv st1) : RangeInv st2 := by
  intro p hp
  exact hinv p (h ▸ hp)

/-- The fields read by cleanupSat and by the range invariant: a record
surviving cleanup keeps its position and provenance. -/
theorem SkyPlotWidget.cleanupSat_fields {m : Int} {s s1 : SatelliteInfo}
    (h : SkyPlotWidget.cleanupSat m s = some s1) :
    s1.elevation = s.elevation ∧ s1.azimuth = s.azimuth ∧
      s1.positionSource = s.positionSource := by
  unfold SkyPlotWidget.cleanupSat at h
  split at h
  · cases h
    exact ⟨rfl, rfl, rfl⟩
  · dsimp only at h
    split at h
    · cases h
    · cases h
      exact ⟨rfl, rfl, rfl⟩

theorem SkyPlotWidget.rangeInv_cleanup (st : SkyPlotWidget) (hinv : RangeInv st) :
    RangeInv (SkyPlotWidget.cleanupStaleSatellites st) := by
  intro p hp hsrc
  simp only [SkyPlotWidget.cleanupStaleSatellites, List.mem_filterMap] at hp
  obtain ⟨q, hq, hmap⟩ := hp
  rcases hcl : SkyPlotWidget.cleanupSat st.maxMissedUpdates q.2 with _ | s1
  · rw [hcl] at hmap
    simp at hmap
  · rw [hcl] at hmap
    simp only [Option.map_some', Option.some.injEq] at hmap
    obtain ⟨hel, haz, hps⟩ := SkyPlotWidget.cleanupSat_fields hcl
    subst hmap
    rw [hel, haz]
    exact hinv q hq (by rw [← hps]; exact hsrc)

theorem SkyPlotWidget.rangeInv_markUnseen (st : SkyPlotWidget) (hinv : RangeInv st) :
    RangeInv { st with satellites :=
      st.satellites.map (fun p => (p.1, { p.2 with seenInThisUpdate := false })) } := by
  intro p hp hsrc
  simp only [List.mem_map] at hp
  obtain ⟨q, hq, rfl⟩ := hp
  exact hinv q hq hsrc

theorem SkyPlotWidget.rangeInv_foldl (A : ApproxModel) (b : List GnssSynchro)
    (st : SkyPlotWidget) (hprn : ∀ o ∈ b, 0 ≤ o.prn) (hinv : RangeInv st) :
    RangeInv (b.foldl (SkyPlotWidget.processStep A) st) := by
  induction b generalizing st with
  | nil => exact hinv
  | cons o t ih =>
    rw [List.foldl_cons]
    refine ih _ (fun o1 ho1 => hprn o1 (List.mem_cons_of_mem _ ho1)) ?_
    unfold SkyPlotWidget.processStep
    split
    · exact SkyPlotWidget.rangeInv_processSatellite A o st
        (hprn o (List.mem_cons_self _ _)) hinv
    · exact hinv

theorem SkyPlotWidget.rangeInv_updateSatellites (A : ApproxModel)
    (b : List GnssSynchro) (st : SkyPlotWidget)
    (hprn : ∀ o ∈ b, 0 ≤ o.prn) (hinv : RangeInv st) :
    RangeInv (SkyPlotWidget.updateSatellites A b st) := by
  simp only [SkyPlotWidget.updateSatellites]
  refine rangeInv_of_satellites_eq (SkyPlotWidget.recomputeStats_satellites _) ?_
  exact SkyPlotWidget.rangeInv_foldl A b _ hprn
    (SkyPlotWidget.rangeInv_markUnseen st hinv)

/-- The nonnegative PRN side condition on a public operation. -/
def Operation.prnOk : Operation → Bool
  | Operation.updateSatellites obs => obs.all (fun o => decide (0 ≤ o.prn))
  | _ => true

theorem rangeInv_applyOp (A : ApproxModel) (op : Operation) (st : SkyPlotWidget)
    (hok : Operation.prnOk op = true) (hinv : RangeInv st) :
    RangeInv (applyOp A st op) := by
  cases op with
  | updateSatellites b =>
    refine SkyPlotWidget.rangeInv_updateSatellites A b st (fun o ho => ?_) hinv
    simp only [Operation.prnOk, List.all_eq_true] at hok
    exact of_decide_eq_true (hok o ho)
  | updateReceiverPosition pvt =>
    exact rangeInv_of_satellites_eq
      (SkyPlotWidget.updateReceiverPosition_satellites pvt st) hinv
  | clear =>
    intro p hp
    simp [applyOp, SkyPlotWidget.clear] at hp
  | clearStale =>
    exact SkyPlotWidget.rangeInv_cleanup st hinv

theorem rangeInv_applyOps (A : ApproxModel) (ops : List Operation)
    (st : SkyPlotWidget) (hok : ops.all Operation.prnOk = true)
    (hinv : RangeInv st) : RangeInv (applyOps A ops st) := by
  induction ops generalizing st with
  | nil => exact hinv
  | cons op t ih =>
    simp only [List.all_cons, Bool.and_eq_true] at hok
    show RangeInv (applyOps A t (applyOp A st op))
    exact ih _ hok.2 (rangeInv_applyOp A op st hok.1 hinv)

/-- C1 (amended to nonnegative PRNs): starting from the fresh widget,
after any sequence of public operations whose observations all carry a
nonnegative PRN, every record with a position source other than NONE
has elevation in [0, 90] and azimuth in [0, 360); this holds in
particular for records positioned by the unconditional fallback
branch. -/
theorem range_invariant_nonneg_prn (A : ApproxModel) (ops : List Operation)
    (hok : ops.all Operation.prnOk = true) :
    RangeInv (applyOps A ops SkyPlotWidget.initState) := by
  refine rangeInv_applyOps A ops SkyPlotWidget.initState hok ?_
  intro p hp
  simp [SkyPlotWidget.initState] at hp

/-- C1 witness: a fix, a batch (prn 5, GPS), and a stale cleanup pass
starting from the fresh widget satisfy the invariant. -/
theorem range_invariant_nonneg_prn_witness :
    ([Operation.updateReceiverPosition pvtGood,
        Operation.updateSatellites [obsG5],
        Operation.clearStale].all Operation.prnOk = true) ∧
    RangeInv (applyOps approxZero
      [Operation.updateReceiverPosition pvtGood,
        Operation.updateSatellites [obsG5],
        Operation.clearStale] SkyPlotWidget.initState) :=
  ⟨by decide,
    range_invariant_nonneg_prn approxZero
      [Operation.updateReceiverPosition pvtGood,
        Operation.updateSatellites [obsG5],
        Operation.clearStale] (by decide)⟩

/-- C1 counterexample: with the PRN typed as int (spec, section 6), a
single batch carrying PRN -1 on channel 1 with no measured position and
no fix held drives the unconditional fallback branch to store azimuth
fmod(-23, 360) = -23 with source FALLBACK, so a record with a non NONE
source leaves the claimed azimuth range [0, 360). -/
theorem range_invariant_fails_negative_prn :
    ¬ RangeInv (applyOps approxZero
      [Operation.updateSatellites [obsNegG]] SkyPlotWidget.initState) := by
  decide
